import Mathlib

/-!
# A shallow embedding of `src/dashboard.py`

`dashboard.py` is a Streamlit data-exploration dashboard.  Its behaviour is a
pure function of (a) the content of the CSV input (uploaded file or the default
`diabetes.csv`) and (b) the current widget selections: each user interaction
triggers one top-to-bottom re-run of the script.  This file embeds, in order:

* the in-memory dataset produced by `pd.read_csv` (columns of typed cells,
  with pandas' default dtype inference modelled for the dtypes the default
  CSV reader can produce: `int64`, `float64`, `bool`, `object`);
* the two cached helper functions `load_data` and `generate_summary_stats`;
* the correlation matrices `DataFrame.corr(method='pearson'/'spearman')`
  computed in the Correlation Analysis branch, in exact rational arithmetic
  with a square-root-free representation of each entry;
* the render pass of `main()` as a function from the environment (file
  contents) and the widget state to the list of widgets/effects emitted.

Modelling notes, applied consistently below:

* A CSV input is modelled after tokenisation: a header (list of column names)
  and a list of rows (lists of cell strings).  A *parse failure* of
  `pd.read_csv` (malformed file, I/O error) is modelled by the environment
  returning an error string instead of a grid.
* pandas' default missing-value tokens are modelled by the representative
  subset `""`, `"NA"`, `"NaN"`, `"null"`; numeric literals are modelled as
  plain (optionally signed) decimal literals.  The claims only exercise
  these forms.
* Floating-point cells are modelled as exact rationals (`ℚ`).  The claims
  under study (counts, symmetry, unit diagonals, an approximate mean) are
  properties that the spec states at this level of abstraction.
* `@st.cache_data` is memoization of a pure function keyed on the argument;
  it is invisible in a pure embedding.
* The `"Memory Usage"` entry of the summary dictionary is a formatted string
  whose value depends on the runtime's memory layout; it is outside the
  shallow embedding and no claim tests its value, so the embedded summary
  record carries the four machine-checkable fields.
-/

namespace Dashboard

/-! ## Cells and dtypes -/

/-- A single cell of a loaded dataframe: missing (`NaN`), integer, float
(exact rational), boolean, or string, mirroring the values pandas stores for
the dtypes its default CSV reader infers. -/
inductive Cell where
  | na : Cell
  | int (n : Int) : Cell
  | real (q : ℚ) : Cell
  | boolc (b : Bool) : Cell
  | str (s : String) : Cell
deriving DecidableEq, Repr

/-- `True` exactly for the missing-value cell, as `pandas.isnull` reports. -/
def Cell.isNa : Cell → Bool
  | .na => true
  | _ => false

/-- Numeric view of a cell (`int64`/`float64` values), used by statistics. -/
def Cell.toRat? : Cell → Option ℚ
  | .int n => some (n : ℚ)
  | .real q => some q
  | _ => none

/-- The column dtypes relevant to `dashboard.py`: the four dtypes pandas'
default CSV reader can infer, plus `category` (never inferred by `read_csv`,
but listed in the program's `select_dtypes(include=['object','category'])`
call). -/
inductive Dtype where
  | int64 : Dtype
  | float64 : Dtype
  | bool : Dtype
  | object : Dtype
  | category : Dtype
deriving DecidableEq, Repr

/-- Dtypes selected by `select_dtypes(include=['float64','int64'])`. -/
def Dtype.isNumeric : Dtype → Bool
  | .int64 => true
  | .float64 => true
  | _ => false

/-- Dtypes selected by `select_dtypes(include=['object','category'])`. -/
def Dtype.isCategorical : Dtype → Bool
  | .object => true
  | .category => true
  | _ => false

/-- A named, typed column of cells. -/
structure Column where
  name : String
  dtype : Dtype
  cells : List Cell
deriving DecidableEq, Repr

/-- A loaded dataframe: the list of its columns. -/
structure DataFrame where
  cols : List Column
deriving DecidableEq, Repr

/-! ## The `pd.read_csv` model: cell parsing and dtype inference -/

/-- Representative subset of pandas' default missing-value tokens. -/
def isMissingStr (s : String) : Bool :=
  s == "" || s == "NA" || s == "NaN" || s == "null"

/-- The boolean literals pandas' CSV reader recognises by default. -/
def isBoolStr (s : String) : Bool :=
  s == "True" || s == "False" || s == "TRUE" || s == "FALSE"

/-- The literals read as `True`. -/
def isTrueStr (s : String) : Bool :=
  s == "True" || s == "TRUE"

/-- Parse a nonempty run of decimal digits. -/
def natOfDigits (cs : List Char) : Option Nat :=
  match cs with
  | [] => none
  | _ =>
    cs.foldl
      (fun acc c =>
        acc.bind (fun n => if c.isDigit then some (n * 10 + (c.toNat - 48)) else none))
      (some 0)

/-- Parse an unsigned decimal literal `digits` or `digits.digits` as an exact
rational. -/
def parseDecCore (cs : List Char) : Option ℚ :=
  let ip := cs.takeWhile (fun c => c != '.')
  let rest := cs.dropWhile (fun c => c != '.')
  match rest with
  | [] => (natOfDigits ip).map (fun n => (n : ℚ))
  | _ :: fp =>
    match natOfDigits ip, natOfDigits fp with
    | some n, some f => some ((n : ℚ) + (f : ℚ) / ((10 : ℚ) ^ fp.length))
    | _, _ => none

/-- Parse an optionally signed decimal literal as an exact rational. -/
def parseDecimal (s : String) : Option ℚ :=
  match s.data with
  | [] => none
  | '-' :: rest => (parseDecCore rest).map (fun q => -q)
  | '+' :: rest => parseDecCore rest
  | cs => parseDecCore cs

/-- Parse an optionally signed integer literal (no decimal point). -/
def parseIntStr (s : String) : Option Int :=
  if s.data.any (fun c => c == '.') then none
  else (parseDecimal s).map (fun q => q.num)

/-- pandas' default dtype inference for a raw column of cell strings:
all-integer columns are `int64` (demoted to `float64` when missing values
force a `NaN`), decimal columns are `float64`, all-boolean columns are
`bool`, everything else (including an empty, zero-row column) is `object`. -/
def inferDtype (raw : List String) : Dtype :=
  if raw.isEmpty then .object
  else
    let present := raw.filter (fun s => !(isMissingStr s))
    if present.all (fun s => (parseIntStr s).isSome) then
      (if present.length == raw.length then .int64 else .float64)
    else if present.all (fun s => (parseDecimal s).isSome) then .float64
    else if present.all isBoolStr && present.length == raw.length then .bool
    else .object

/-- Convert one raw cell string to a typed cell of the inferred dtype. -/
def toCell (dt : Dtype) (s : String) : Cell :=
  if isMissingStr s then .na
  else
    match dt with
    | .int64 =>
      match parseIntStr s with
      | some n => .int n
      | none => .na
    | .float64 =>
      match parseDecimal s with
      | some q => .real q
      | none => .na
    | .bool => .boolc (isTrueStr s)
    | .object => .str s
    | .category => .str s

/-- The `pd.read_csv` model: from a tokenised grid (header and rows) build a
dataframe, inferring one dtype per column and typing its cells. -/
def read_csv (header : List String) (rows : List (List String)) : DataFrame :=
  ⟨(List.range header.length).map (fun i =>
    let raw := rows.map (fun r => r.getD i "")
    let dt := inferDtype raw
    ⟨header.getD i "", dt, raw.map (toCell dt)⟩)⟩

/-! ## `select_dtypes` projections and `generate_summary_stats` -/

/-- `data.select_dtypes(include=['float64','int64'])`. -/
def numericColumns (df : DataFrame) : List Column :=
  df.cols.filter (fun c => c.dtype.isNumeric)

/-- `data.select_dtypes(include=['object','category'])`. -/
def categoricalColumns (df : DataFrame) : List Column :=
  df.cols.filter (fun c => c.dtype.isCategorical)

/-- `len(data)`: the number of rows. -/
def nRows (df : DataFrame) : Nat :=
  match df.cols with
  | [] => 0
  | c :: _ => c.cells.length

/-- `data.isnull()`: the per-column boolean missingness mask. -/
def isnull (df : DataFrame) : List (List Bool) :=
  df.cols.map (fun c => c.cells.map Cell.isNa)

/-- `.sum()` of one boolean column: the number of `True` entries. -/
def boolColSum (col : List Bool) : Nat :=
  (col.map (fun b => if b then 1 else 0)).sum

/-- `data.isnull().sum().sum()`: total missing cells. -/
def totalNulls (df : DataFrame) : Nat :=
  ((isnull df).map boolColSum).sum

/-- The machine-checkable fields of the dictionary built by
`generate_summary_stats` (the `"Memory Usage"` string is runtime-dependent
and excluded, see the header comment). -/
structure Summary where
  totalRecords : Nat
  missingValues : Nat
  numericColumns : Nat
  categoricalColumns : Nat
deriving DecidableEq, Repr

/-- `generate_summary_stats(data)` from `dashboard.py`, lines 55-64. -/
def generate_summary_stats (data : DataFrame) : Summary :=
  { totalRecords := nRows data
    missingValues := totalNulls data
    numericColumns := (numericColumns data).length
    categoricalColumns := (categoricalColumns data).length }

/-- Independent specification-side count of nulls in one column, used to
state that the reported total is the sum of per-column null counts. -/
def nullCount (c : Column) : Nat :=
  c.cells.countP Cell.isNa

/-- `data[col].describe()`'s mean entry: the mean of the non-null numeric
values of the column (`none` when there are no such values). -/
def describeMean (c : Column) : Option ℚ :=
  let vs := c.cells.filterMap Cell.toRat?
  if vs.length = 0 then none else some (vs.sum / (vs.length : ℚ))

/-- Column lookup by name (`data[name]`). -/
def colByName (df : DataFrame) (n : String) : Option Column :=
  df.cols.find? (fun c => c.name == n)

/-! ## The correlation matrix (`numeric_data.corr(method=...)`)

`DataFrame.corr` computes, for each pair of numeric columns, the correlation
of the rows where *both* entries are non-null (pairwise-complete
observations); for `spearman` the two masked series are rank-transformed
(average ranks for ties) before the Pearson formula is applied.  A pair
whose masked series has zero squared deviation (constant, empty or
single-observation data) yields `NaN`.

The Pearson value is `r = sxy / sqrt(sxx * syy)` with `sxx, syy, sxy` the
(co)deviation sums.  `sqrt` is irrational, so the embedding stores each
defined entry square-root-free as the pair `(sign r, r^2)`, which determines
`r` exactly: `r = 1` iff the stored pair is `(1, 1)`.  `NaN` is `none`. -/

/-- The two correlation methods offered by the radio control. -/
inductive CorrMethod where
  | pearson : CorrMethod
  | spearman : CorrMethod
deriving DecidableEq, Repr

/-- Radio-button label of a correlation method. -/
def CorrMethod.label : CorrMethod → String
  | .pearson => "Pearson"
  | .spearman => "Spearman"

/-- A defined correlation entry `r`, stored square-root-free as
`(sign r, r * r)`. -/
structure CorrVal where
  sign : Int
  sq : ℚ
deriving DecidableEq, Repr

/-- Pairwise-complete observations of two series: the row pairs where both
entries are non-null. -/
def validPairs (xs ys : List (Option ℚ)) : List (ℚ × ℚ) :=
  (xs.zip ys).filterMap (fun p =>
    match p with
    | (some a, some b) => some (a, b)
    | _ => none)

/-- Arithmetic mean of a list of rationals (0 on the empty list). -/
def listMean (l : List ℚ) : ℚ :=
  l.sum / (l.length : ℚ)

/-- Deviations from the mean. -/
def demean (l : List ℚ) : List ℚ :=
  l.map (fun x => x - listMean l)

/-- Sum of pointwise products of two equal-length series. -/
def sprod (u v : List ℚ) : ℚ :=
  ((u.zip v).map (fun p => p.1 * p.2)).sum

/-- Sign of a rational, as pandas' division of the codeviation by the
positive square root leaves it. -/
def ratSign (q : ℚ) : Int :=
  if 0 < q then 1 else if q < 0 then -1 else 0

/-- Pearson correlation of two already-masked, equal-length series, in the
square-root-free representation; `none` is `NaN` (zero variance). -/
def pearsonOf (u v : List ℚ) : Option CorrVal :=
  let du := demean u
  let dv := demean v
  let sxx := sprod du du
  let syy := sprod dv dv
  let sxy := sprod du dv
  if sxx = 0 ∨ syy = 0 then none
  else some ⟨ratSign sxy, sxy * sxy / (sxx * syy)⟩

/-- Average rank (1-based, ties get the mean of their positions) of `v`
within the multiset `l`, as `scipy`/pandas `rankdata(method='average')`
assigns it. -/
def avgRank (v : ℚ) (l : List ℚ) : ℚ :=
  ((l.countP (fun x => decide (x < v)) : ℚ)) +
    (((l.countP (fun x => decide (x = v)) : ℚ)) + 1) / 2

/-- Rank-transform a series (average ranks for ties). -/
def rankList (l : List ℚ) : List ℚ :=
  l.map (fun v => avgRank v l)

/-- One entry of `numeric_data.corr(method=...)` for a pair of series. -/
def corrEntry (m : CorrMethod) (xs ys : List (Option ℚ)) : Option CorrVal :=
  let ps := validPairs xs ys
  match m with
  | .pearson => pearsonOf (ps.map Prod.fst) (ps.map Prod.snd)
  | .spearman => pearsonOf (rankList (ps.map Prod.fst)) (rankList (ps.map Prod.snd))

/-- The numeric-only projection of the dataset, as series of optional
values (`data.select_dtypes(include=['float64','int64'])`, line 159). -/
def numericSeries (df : DataFrame) : List (List (Option ℚ)) :=
  (numericColumns df).map (fun c => c.cells.map Cell.toRat?)

/-- `numeric_data.corr(method=...)` (lines 162-165): the full matrix over
the numeric-only projection. -/
def corrMatrix (m : CorrMethod) (df : DataFrame) : List (List (Option CorrVal)) :=
  (numericSeries df).map (fun x => (numericSeries df).map (fun y => corrEntry m x y))

/-- Entry `(i, j)` of a matrix; the outer `none` means out of bounds. -/
def matEntry (M : List (List (Option CorrVal))) (i j : Nat) : Option (Option CorrVal) :=
  (M.get? i).bind (fun row => row.get? j)

/-- A series is non-constant when its non-null part holds two distinct
values; this is exactly the condition under which pandas' correlation
diagonal is defined (not `NaN`). -/
def nonConstant (s : List (Option ℚ)) : Prop :=
  ∃ a ∈ s.filterMap id, ∃ b ∈ s.filterMap id, a ≠ b

instance (s : List (Option ℚ)) : Decidable (nonConstant s) := by
  unfold nonConstant
  exact inferInstance

/-! ## `load_data` and the render pass of `main()`

The render pass is re-run top to bottom on every interaction.  It is a pure
function of the environment (what reading each input source yields) and of
the widget-state snapshot, and produces the ordered list of widgets/effects
it emits.  The `Widget` vocabulary covers every `st.*` call in
`dashboard.py`, plus two constructors (`valueCountDisplay`,
`downloadArtifact`) that give the spec's value-count display and a produced
report artifact a place in the vocabulary — the code never emits either. -/

/-- An input source: the default on-disk path or a user-uploaded file. -/
inductive Source where
  | path (p : String) : Source
  | upload (f : String) : Source
deriving DecidableEq, Repr

/-- One widget or effect emitted during a render pass. -/
inductive Widget where
  | title (s : String) : Widget
  | text (s : String) : Widget
  | headerW (s : String) : Widget
  | subheader (s : String) : Widget
  | infoMsg (s : String) : Widget
  | errorMsg (s : String) : Widget
  | successMsg (s : String) : Widget
  | metricNat (label : String) (value : Nat) : Widget
  | metricText (label : String) : Widget
  | dataframeHead : Widget
  | fileUploader : Widget
  | selectboxW (label : String) (options : List String) (chosen : Option String) : Widget
  | radioW (label : String) (options : List String) (chosen : String) : Widget
  | buttonW (label : String) : Widget
  | statLine (s : String) : Widget
  | describeTable (col : Option String) : Widget
  | histChart (col : Option String) : Widget
  | boxChart (col : Option String) : Widget
  | scatterChart (x y : Option String) : Widget
  | lineChart (x y : Option String) : Widget
  | barChart (x y : Option String) : Widget
  | heatmap (method : String) : Widget
  | corrTable (method : String) : Widget
  | valueCountDisplay (col : String) (counts : List (String × Nat)) : Widget
  | downloadArtifact (name : String) : Widget
deriving DecidableEq, Repr

/-- The environment: reading a source yields a tokenised CSV grid (header
and rows) or a parse/IO failure with its message.  This is the behaviour of
`pd.read_csv` on that source. -/
def Env : Type :=
  Source → Except String (List String × List (List String))

/-- `load_data` (lines 46-53): `try: return pd.read_csv(...)` and on any
exception `st.error(...)` and `return None`.  The embedding returns the
optional dataframe together with the widgets the call emits; it is a total
function — the `try/except` is the `Except` match, so no failure escapes. -/
def load_data (env : Env) (src : Source) : Option DataFrame × List Widget :=
  match env src with
  | .ok g => (some (read_csv g.1 g.2), [])
  | .error e => (none, [.errorMsg ("Error loading data: " ++ e)])

/-- The three options of the analysis-type selectbox. -/
inductive AnalysisType where
  | univariate : AnalysisType
  | bivariate : AnalysisType
  | correlation : AnalysisType
deriving DecidableEq, Repr

/-- Selectbox label of an analysis type. -/
def AnalysisType.label : AnalysisType → String
  | .univariate => "Univariate Analysis"
  | .bivariate => "Bivariate Analysis"
  | .correlation => "Correlation Analysis"

/-- The three options of the bivariate plot-type radio. -/
inductive PlotType where
  | scatter : PlotType
  | line : PlotType
  | bar : PlotType
deriving DecidableEq, Repr

/-- Radio label of a plot type. -/
def PlotType.label : PlotType → String
  | .scatter => "Scatter"
  | .line => "Line"
  | .bar => "Bar"

/-- A snapshot of the user's widget selections for one render.  Selections
backed by option lists are stored as indices; `select` below maps an index
to the chosen option the way the Streamlit widget reports it. -/
structure UiState where
  uploaded : Option String
  analysisType : AnalysisType
  numericColIdx : Nat
  xColIdx : Nat
  yColIdx : Nat
  plotType : PlotType
  corrMethod : CorrMethod
  exportClicked : Bool
deriving DecidableEq, Repr

/-- A selection widget's reported value: a member of its option list, or
`None` when the option list is empty (Streamlit's behaviour). -/
def select (opts : List String) (i : Nat) : Option String :=
  if opts.length = 0 then none else opts.get? (i % opts.length)

/-- The page header (lines 69-73).  The timestamp text interpolates
`datetime.now()`; the wall clock is outside the embedding, so the constant
prefix of the text stands for it. -/
def headerWidgets : List Widget :=
  [.title "📊 Advanced Analytics Dashboard", .text "Last updated:"]

/-- The sidebar header and the file-upload control (lines 76-79). -/
def sidebarWidgets : List Widget :=
  [.headerW "📱 Dashboard Controls", .fileUploader]

/-- The source `main` reads: the uploaded file when one is supplied, else
the default on-disk `diabetes.csv` (lines 80-85). -/
def chosenSource (ui : UiState) : Source :=
  match ui.uploaded with
  | some f => .upload f
  | none => .path "diabetes.csv"

/-- The dataset the render works with: the result of `load_data` on the
chosen source. -/
def dataOf (env : Env) (ui : UiState) : Option DataFrame :=
  (load_data env (chosenSource ui)).1

/-- The widgets the load step emits (lines 80-85): on the upload branch,
any loader error then the sidebar success message; on the default branch,
the info message then any loader error. -/
def loadWidgets (env : Env) (ui : UiState) : List Widget :=
  match ui.uploaded with
  | some f =>
    (load_data env (.upload f)).2 ++ [.successMsg "✅ File uploaded successfully!"]
  | none =>
    .infoMsg "ℹ️ Using default dataset: diabetes.csv" ::
      (load_data env (.path "diabetes.csv")).2

/-- The univariate branch's numeric-column selection (line 115): a choice
from the numeric-only column names. -/
def numSelection (d : DataFrame) (ui : UiState) : Option String :=
  select ((numericColumns d).map Column.name) ui.numericColIdx

/-- The bivariate branch's X-axis selection (line 140): a choice from all
column names. -/
def xSelection (d : DataFrame) (ui : UiState) : Option String :=
  select (d.cols.map Column.name) ui.xColIdx

/-- The Y-axis option list (line 142):
`[col for col in data.columns if col != x_col]`. -/
def yOptions (d : DataFrame) (ui : UiState) : List String :=
  (d.cols.map Column.name).filter (fun c => !(some c == xSelection d ui))

/-- The bivariate branch's Y-axis selection (line 142). -/
def ySelection (d : DataFrame) (ui : UiState) : Option String :=
  select (yOptions d ui) ui.yColIdx

/-- The widgets of the selected analysis branch (lines 110-176). -/
def branchWidgets (d : DataFrame) (ui : UiState) : List Widget :=
  match ui.analysisType with
  | .univariate =>
    [.subheader "📊 Numeric Distribution",
     .selectboxW "Select Numeric Column" ((numericColumns d).map Column.name)
       (numSelection d ui),
     .histChart (numSelection d ui),
     .statLine "Summary Statistics:",
     .describeTable (numSelection d ui),
     .subheader "📈 Time Series/Trend",
     .boxChart (numSelection d ui),
     .statLine "Skewness:",
     .statLine "Kurtosis:"]
  | .bivariate =>
    [.subheader "🔄 Bivariate Analysis",
     .selectboxW "Select X-axis" (d.cols.map Column.name) (xSelection d ui),
     .selectboxW "Select Y-axis" (yOptions d ui) (ySelection d ui),
     .radioW "Select Plot Type" ["Scatter", "Line", "Bar"] ui.plotType.label,
     (match ui.plotType with
      | .scatter => .scatterChart (xSelection d ui) (ySelection d ui)
      | .line => .lineChart (xSelection d ui) (ySelection d ui)
      | .bar => .barChart (xSelection d ui) (ySelection d ui))]
  | .correlation =>
    [.subheader "🔗 Correlation Analysis",
     .radioW "Select Correlation Method" ["Pearson", "Spearman"] ui.corrMethod.label,
     .heatmap ui.corrMethod.label,
     .statLine "### Detailed Correlation Values",
     .corrTable ui.corrMethod.label]

/-- The body rendered when a dataset is available (lines 87-182): overview
metrics, analysis-type selectbox, the selected branch, and the export
section.  The export button click only emits the success message — no
report is created and nothing is written. -/
def renderBody (d : DataFrame) (ui : UiState) : List Widget :=
  let s := generate_summary_stats d
  [Widget.metricNat "Total Records" s.totalRecords,
   Widget.metricNat "Missing Values" s.missingValues,
   Widget.metricText "Memory Usage",
   Widget.dataframeHead,
   Widget.subheader "🎯 Analysis Options",
   Widget.selectboxW "Choose Analysis Type"
     ["Univariate Analysis", "Bivariate Analysis", "Correlation Analysis"]
     (some ui.analysisType.label)]
  ++ branchWidgets d ui
  ++ (Widget.subheader "💾 Export Options" :: Widget.buttonW "Export Analysis Report" ::
      (if ui.exportClicked then [Widget.successMsg "Report exported successfully!"] else []))

/-- The error notice of the `else` branch (line 185). -/
def noDataMsg : String :=
  "❌ No data available. Please upload a valid CSV file or include the default dataset."

/-- One full run of `main()` (lines 67-185): header, sidebar, load step,
then either the body over the loaded dataset or the single no-data error. -/
def main_render (env : Env) (ui : UiState) : List Widget :=
  headerWidgets ++ sidebarWidgets ++ loadWidgets env ui ++
    (match dataOf env ui with
     | some d => renderBody d ui
     | none => [Widget.errorMsg noDataMsg])

/-- Widgets that carry statistical or plotting output computed from a
dataset, as opposed to chrome, messages and bare input controls. -/
def isStatW : Widget → Bool
  | .metricNat _ _ => true
  | .metricText _ => true
  | .dataframeHead => true
  | .statLine _ => true
  | .describeTable _ => true
  | .histChart _ => true
  | .boxChart _ => true
  | .scatterChart _ _ => true
  | .lineChart _ _ => true
  | .barChart _ _ => true
  | .heatmap _ => true
  | .corrTable _ => true
  | _ => false

/-- The vocabulary-only constructors: a value-count display and a produced
report artifact.  `dashboard.py` has no code path that emits either. -/
def isPhantom : Widget → Bool
  | .valueCountDisplay _ _ => true
  | .downloadArtifact _ => true
  | _ => false

/-- Occurrences of the no-data error notice in a widget list. -/
def countNoData (ws : List Widget) : Nat :=
  ws.countP (fun w => decide (w = .errorMsg noDataMsg))

/-! ## Concrete inputs used by witnesses and counterexamples -/

/-- Header of the spec's worked example CSV. -/
def csv6header : List String :=
  ["age", "glucose", "outcome"]

/-- Rows of the spec's worked example CSV. -/
def csv6rows : List (List String) :=
  [["25", "99.1", "A"], ["40", "150.0", "B"], ["60", "110.5", "A"]]

/-- The worked example loaded through the `read_csv` model. -/
def df6 : DataFrame :=
  read_csv csv6header csv6rows

/-- An environment in which every source holds the worked example CSV. -/
def env6 : Env :=
  fun _ => .ok (csv6header, csv6rows)

/-- A CSV whose single column consists of boolean literals: pandas infers
dtype `bool`, which `select_dtypes` counts as neither numeric nor
categorical. -/
def dfBool : DataFrame :=
  read_csv ["flag"] [["True"], ["False"]]

/-- A CSV whose single numeric column is constant: its correlation diagonal
is `NaN`. -/
def dfConst : DataFrame :=
  read_csv ["x"] [["1"], ["1"]]

/-- A CSV with two non-constant integer columns, used to instantiate the
correlation theorem concretely. -/
def dfInts : DataFrame :=
  read_csv ["a", "b"] [["1", "2"], ["2", "1"]]

/-- A CSV with zero numeric columns. -/
def dfCat : DataFrame :=
  read_csv ["label"] [["A"], ["B"]]

/-- An environment in which every source holds the zero-numeric CSV. -/
def envCat : Env :=
  fun _ => .ok (["label"], [["A"], ["B"]])

/-- An environment in which every read fails. -/
def envFail : Env :=
  fun _ => .error "boom"

/-- Default widget state: no upload, univariate analysis, first options. -/
def uiDefault : UiState :=
  ⟨none, .univariate, 0, 0, 0, .scatter, .pearson, false⟩

/-- Widget state with the Correlation Analysis branch selected. -/
def uiCorr : UiState :=
  ⟨none, .correlation, 0, 0, 0, .scatter, .pearson, false⟩

/-- Widget state with the export button clicked. -/
def uiExport : UiState :=
  ⟨none, .univariate, 0, 0, 0, .scatter, .pearson, true⟩

/-! ## Helper lemmas -/

theorem sum_boolIndicator (l : List Bool) :
    (l.map (fun b => if b then 1 else 0)).sum = l.countP id := by
  induction l with
  | nil => rfl
  | cons b l ih =>
    rw [List.map_cons, List.sum_cons, List.countP_cons, ih]
    cases b <;> simp [id, Nat.add_comm]

theorem boolColSum_map_isNa (cells : List Cell) :
    boolColSum (cells.map Cell.isNa) = cells.countP Cell.isNa := by
  unfold boolColSum
  rw [sum_boolIndicator, List.countP_map]
  rfl

theorem totalNulls_eq_sum_nullCount (df : DataFrame) :
    totalNulls df = (df.cols.map nullCount).sum := by
  unfold totalNulls isnull
  rw [List.map_map]
  induction df.cols with
  | nil => rfl
  | cons c cols ih =>
    simp only [List.map_cons, List.sum_cons, Function.comp] at ih ⊢
    rw [boolColSum_map_isNa, ih]
    rfl

theorem length_filter_partition {α : Type} (p q : α → Bool) (l : List α)
    (h : ∀ x ∈ l, q x = !p x) :
    (l.filter p).length + (l.filter q).length = l.length := by
  induction l with
  | nil => rfl
  | cons x l ih =>
    have hx := h x (List.mem_cons_self x l)
    have ih2 := ih (fun y hy => h y (List.mem_cons_of_mem x hy))
    cases hp : p x <;> rw [hp] at hx <;> simp [List.filter_cons, hp, hx] <;> omega

theorem dtype_compl {d : Dtype} (hb : d ≠ .bool) :
    d.isCategorical = !d.isNumeric := by
  cases d <;> first | rfl | exact absurd rfl hb

theorem inferDtype_ne_category (raw : List String) : inferDtype raw ≠ .category := by
  simp only [inferDtype]
  split_ifs <;> simp

theorem read_csv_cols_length (h : List String) (rows : List (List String)) :
    (read_csv h rows).cols.length = h.length := by
  simp [read_csv]

theorem read_csv_col_spec (h : List String) (rows : List (List String)) :
    ∀ c ∈ (read_csv h rows).cols,
      c.cells.length = rows.length ∧ c.dtype ≠ .category := by
  intro c hc
  simp only [read_csv, List.mem_map, List.mem_range] at hc
  obtain ⟨i, _, rfl⟩ := hc
  exact ⟨by simp, inferDtype_ne_category _⟩

theorem select_mem {opts : List String} {i : Nat} {v : String}
    (h : select opts i = some v) : v ∈ opts := by
  unfold select at h
  split at h
  · exact absurd h (by simp)
  · exact List.get?_mem h

theorem select_singleton (c : String) (i : Nat) : select [c] i = some c := by
  simp [select, Nat.mod_one]

theorem string_data_append (a b : String) : (a ++ b).data = a.data ++ b.data := by
  cases a
  cases b
  rfl

theorem loader_msg_ne_noData (e : String) :
    "Error loading data: " ++ e ≠ noDataMsg := by
  intro h
  have h2 : ("Error loading data: " ++ e).data.head? = noDataMsg.data.head? := by rw [h]
  rw [string_data_append] at h2
  have h3 : "Error loading data: ".data = 'E' :: "rror loading data: ".data := rfl
  rw [h3, List.cons_append, List.head?_cons] at h2
  have h4 : noDataMsg.data.head? = some '❌' := rfl
  rw [h4] at h2
  exact absurd (Option.some.inj h2) (by decide)

theorem validPairs_symm (xs ys : List (Option ℚ)) :
    validPairs ys xs = (validPairs xs ys).map Prod.swap := by
  induction xs generalizing ys with
  | nil => cases ys <;> rfl
  | cons x xs ih =>
    cases ys with
    | nil => rfl
    | cons y ys =>
      have ih2 := ih ys
      cases x <;> cases y <;>
        simp only [validPairs, List.zip_cons_cons, List.filterMap_cons] at ih2 ⊢ <;>
        simp [ih2]

theorem map_fst_swap (ps : List (ℚ × ℚ)) :
    (ps.map Prod.swap).map Prod.fst = ps.map Prod.snd := by
  simp [List.map_map, Function.comp_def]

theorem map_snd_swap (ps : List (ℚ × ℚ)) :
    (ps.map Prod.swap).map Prod.snd = ps.map Prod.fst := by
  simp [List.map_map, Function.comp_def]

theorem sprod_comm (u v : List ℚ) : sprod u v = sprod v u := by
  induction u generalizing v with
  | nil => cases v <;> rfl
  | cons a u ih =>
    cases v with
    | nil => rfl
    | cons b v =>
      show a * b + sprod u v = b * a + sprod v u
      rw [mul_comm a b, ih]

theorem pearsonOf_comm (u v : List ℚ) : pearsonOf v u = pearsonOf u v := by
  simp only [pearsonOf]
  rw [sprod_comm (demean v) (demean u)]
  rcases eq_or_ne (sprod (demean u) (demean u)) 0 with h1 | h1 <;>
    rcases eq_or_ne (sprod (demean v) (demean v)) 0 with h2 | h2 <;>
    simp [h1, h2, mul_comm]

theorem corrEntry_comm (m : CorrMethod) (xs ys : List (Option ℚ)) :
    corrEntry m ys xs = corrEntry m xs ys := by
  cases m <;>
    simp only [corrEntry] <;>
    rw [validPairs_symm xs ys, map_fst_swap, map_snd_swap] <;>
    exact pearsonOf_comm _ _

theorem list_sum_zero_of_nonneg {l : List ℚ} (h : ∀ x ∈ l, 0 ≤ x)
    (hs : l.sum = 0) : ∀ x ∈ l, x = 0 := by
  induction l with
  | nil => simp
  | cons a l ih =>
    rw [List.sum_cons] at hs
    have ha : 0 ≤ a := h a (List.mem_cons_self a l)
    have hl : 0 ≤ l.sum :=
      List.sum_nonneg (fun x hx => h x (List.mem_cons_of_mem a hx))
    have ha0 : a = 0 := by linarith
    intro x hx
    rcases List.mem_cons.mp hx with rfl | hx
    · exact ha0
    · exact ih (fun y hy => h y (List.mem_cons_of_mem a hy)) (by linarith) x hx

theorem sprod_self (u : List ℚ) : sprod u u = (u.map (fun x => x * x)).sum := by
  induction u with
  | nil => rfl
  | cons a u ih =>
    show a * a + sprod u u = a * a + (u.map (fun x => x * x)).sum
    rw [ih]

theorem sq_dev_sum_pos {l : List ℚ} {a b : ℚ} (ha : a ∈ l) (hb : b ∈ l)
    (hab : a ≠ b) : 0 < sprod (demean l) (demean l) := by
  rw [sprod_self, demean, List.map_map]
  set m := listMean l with hm
  set f : ℚ → ℚ := fun x => (x - m) * (x - m) with hf
  have hcomp : ((fun x => x * x) ∘ fun x => x - m) = f := rfl
  rw [hcomp]
  have hnn : ∀ y ∈ l.map f, 0 ≤ y := by
    intro y hy
    obtain ⟨x, _, rfl⟩ := List.mem_map.mp hy
    exact mul_self_nonneg _
  have hge : 0 ≤ (l.map f).sum := List.sum_nonneg hnn
  rcases hge.lt_or_eq with h | h
  · exact h
  · exfalso
    have hall := list_sum_zero_of_nonneg hnn h.symm
    have hfa : f a = 0 := hall _ (List.mem_map_of_mem f ha)
    have hfb : f b = 0 := hall _ (List.mem_map_of_mem f hb)
    have hae : a = m := by
      have := mul_self_eq_zero.mp hfa
      linarith
    have hbe : b = m := by
      have := mul_self_eq_zero.mp hfb
      linarith
    exact hab (hae.trans hbe.symm)

theorem pearsonOf_self {u : List ℚ} {a b : ℚ} (ha : a ∈ u) (hb : b ∈ u)
    (hab : a ≠ b) : pearsonOf u u = some ⟨1, 1⟩ := by
  have hpos := sq_dev_sum_pos ha hb hab
  have hne : sprod (demean u) (demean u) ≠ 0 := ne_of_gt hpos
  simp only [pearsonOf]
  rw [if_neg (by simp [hne])]
  have hsig : ratSign (sprod (demean u) (demean u)) = 1 := by
    unfold ratSign
    rw [if_pos hpos]
  rw [hsig, div_self (mul_ne_zero hne hne)]

theorem countP_lt_add_eq_le {l : List ℚ} {a b : ℚ} (hab : a < b) :
    l.countP (fun x => decide (x < a)) + l.countP (fun x => decide (x = a))
      ≤ l.countP (fun x => decide (x < b)) := by
  induction l with
  | nil => simp
  | cons c l ih =>
    simp only [List.countP_cons]
    by_cases h1 : c < a
    · have hcb : c < b := h1.trans hab
      have hne : ¬c = a := ne_of_lt h1
      simp [h1, hcb, hne]
      omega
    · by_cases h2 : c = a
      · subst h2
        simp [lt_irrefl, hab]
        omega
      · simp [h1, h2]
        split <;> omega

theorem avgRank_strictMono {l : List ℚ} {a b : ℚ} (ha : a ∈ l) (hab : a < b) :
    avgRank a l < avgRank b l := by
  have h1 := countP_lt_add_eq_le (l := l) hab
  have h2 : 0 < l.countP (fun x => decide (x = a)) :=
    List.countP_pos.mpr ⟨a, ha, by simp⟩
  unfold avgRank
  have h1q : (l.countP (fun x => decide (x < a)) : ℚ)
      + (l.countP (fun x => decide (x = a)) : ℚ)
      ≤ (l.countP (fun x => decide (x < b)) : ℚ) := by
    exact_mod_cast h1
  have h2q : (1 : ℚ) ≤ (l.countP (fun x => decide (x = a)) : ℚ) := by
    exact_mod_cast h2
  have h3q : (0 : ℚ) ≤ (l.countP (fun x => decide (x = b)) : ℚ) := by
    positivity
  linarith

theorem rankList_mem {v : ℚ} {l : List ℚ} (h : v ∈ l) :
    avgRank v l ∈ rankList l :=
  List.mem_map_of_mem _ h

theorem pearsonOf_rank_self {u : List ℚ} {a b : ℚ} (ha : a ∈ u) (hb : b ∈ u)
    (hab : a ≠ b) : pearsonOf (rankList u) (rankList u) = some ⟨1, 1⟩ := by
  rcases hab.lt_or_lt with h | h
  · exact pearsonOf_self (rankList_mem ha) (rankList_mem hb)
      (ne_of_lt (avgRank_strictMono ha h))
  · exact pearsonOf_self (rankList_mem hb) (rankList_mem ha)
      (ne_of_lt (avgRank_strictMono hb h))

theorem validPairs_self (xs : List (Option ℚ)) :
    validPairs xs xs = (xs.filterMap id).map (fun a => (a, a)) := by
  induction xs with
  | nil => rfl
  | cons x xs ih =>
    cases x <;>
      simp only [validPairs, List.zip_cons_cons, List.filterMap_cons] at ih ⊢ <;>
      simp [ih]

theorem corrEntry_self (m : CorrMethod) (xs : List (Option ℚ))
    (h : nonConstant xs) : corrEntry m xs xs = some ⟨1, 1⟩ := by
  obtain ⟨a, ha, b, hb, hab⟩ := h
  have hfst : (validPairs xs xs).map Prod.fst = xs.filterMap id := by
    rw [validPairs_self, List.map_map]
    exact List.map_id _
  have hsnd : (validPairs xs xs).map Prod.snd = xs.filterMap id := by
    rw [validPairs_self, List.map_map]
    exact List.map_id _
  cases m with
  | pearson =>
    simp only [corrEntry, hfst, hsnd]
    exact pearsonOf_self ha hb hab
  | spearman =>
    simp only [corrEntry, hfst, hsnd]
    exact pearsonOf_rank_self ha hb hab

theorem corrMatrix_entry (m : CorrMethod) (df : DataFrame) (i j : Nat) :
    matEntry (corrMatrix m df) i j =
      ((numericSeries df).get? i).bind (fun x =>
        ((numericSeries df).get? j).map (fun y => corrEntry m x y)) := by
  unfold matEntry corrMatrix
  rw [List.get?_map]
  cases (numericSeries df).get? i <;> simp [List.get?_map]

theorem renderBody_no_phantom (d : DataFrame) (ui : UiState) :
    (renderBody d ui).all (fun w => !(isPhantom w)) = true := by
  obtain ⟨up, aty, ni, xi, yi, pt, cm, ec⟩ := ui
  cases aty <;> cases pt <;> cases ec <;> rfl

theorem loadWidgets_props (env : Env) (ui : UiState) :
    (loadWidgets env ui).all (fun w => !(isPhantom w) && !(isStatW w)) = true := by
  obtain ⟨up, aty, ni, xi, yi, pt, cm, ec⟩ := ui
  cases up with
  | none =>
    cases h : env (Source.path "diabetes.csv") <;>
      simp [loadWidgets, load_data, h, isPhantom, isStatW]
  | some f =>
    cases h : env (Source.upload f) <;>
      simp [loadWidgets, load_data, h, isPhantom, isStatW]

theorem main_render_no_phantom (env : Env) (ui : UiState) :
    ∀ w ∈ main_render env ui, isPhantom w = false := by
  intro w hw
  unfold main_render at hw
  rcases List.mem_append.mp hw with hw | hw
  · rcases List.mem_append.mp hw with hw | hw
    · rcases List.mem_append.mp hw with hw | hw
      · simp only [headerWidgets, List.mem_cons, List.not_mem_nil, or_false] at hw
        rcases hw with rfl | rfl <;> rfl
      · simp only [sidebarWidgets, List.mem_cons, List.not_mem_nil, or_false] at hw
        rcases hw with rfl | rfl <;> rfl
    · have := List.all_eq_true.mp (loadWidgets_props env ui) w hw
      simp only [Bool.and_eq_true, Bool.not_eq_true'] at this
      exact this.1
  · cases hd : dataOf env ui with
    | some d =>
      rw [hd] at hw
      have := List.all_eq_true.mp (renderBody_no_phantom d ui) w hw
      simpa only [Bool.not_eq_true'] using this
    | none =>
      rw [hd] at hw
      simp only [List.mem_cons, List.not_mem_nil, or_false] at hw
      subst hw
      rfl

theorem countNoData_loadWidgets (env : Env) (ui : UiState) :
    countNoData (loadWidgets env ui) = 0 := by
  unfold countNoData loadWidgets
  obtain ⟨up, aty, ni, xi, yi, pt, cm, ec⟩ := ui
  cases up with
  | none =>
    cases h : env (Source.path "diabetes.csv") with
    | ok g => simp [load_data, h]
    | error e => simp [load_data, h, loader_msg_ne_noData e]
  | some f =>
    cases h : env (Source.upload f) with
    | ok g => simp [load_data, h]
    | error e => simp [load_data, h, loader_msg_ne_noData e]

/-! ## The claims -/

/-- C1: on every input whose parse fails, `load_data` returns an absent
dataset (`None`) and emits exactly one non-empty descriptive error message;
being a total function of the embedded `try/except`, it returns instead of
propagating the exception. -/
theorem load_data_failure_yields_none (env : Env) (src : Source) (e : String)
    (h : env src = .error e) :
    (load_data env src).1 = none
    ∧ (load_data env src).2 = [Widget.errorMsg ("Error loading data: " ++ e)]
    ∧ ("Error loading data: " ++ e).length ≠ 0 := by
  refine ⟨by simp [load_data, h], by simp [load_data, h], ?_⟩
  rw [String.length_append]
  have h20 : "Error loading data: ".length = 20 := rfl
  omega

/-- Witness for C1 at a concretely failing environment. -/
theorem load_data_failure_yields_none_witness :
    (load_data envFail (Source.path "diabetes.csv")).1 = none
    ∧ (load_data envFail (Source.path "diabetes.csv")).2
        = [Widget.errorMsg ("Error loading data: " ++ "boom")]
    ∧ ("Error loading data: " ++ "boom").length ≠ 0 :=
  load_data_failure_yields_none envFail (Source.path "diabetes.csv") "boom" rfl

/-- C2 (amended): loading a well-formed CSV with N data rows and M columns
yields a dataset of exactly M columns each holding N cells, and — provided
no column is inferred as dtype `bool` (pandas infers `bool` for all-boolean
columns, and `select_dtypes` counts it as neither numeric nor categorical)
— the numeric-column count plus the categorical-column count reported by
`generate_summary_stats` equals M. -/
theorem read_csv_shape_and_partition (hdr : List String) (rows : List (List String))
    (hrect : ∀ r ∈ rows, r.length = hdr.length) :
    (read_csv hdr rows).cols.length = hdr.length
    ∧ (∀ c ∈ (read_csv hdr rows).cols, c.cells.length = rows.length)
    ∧ ((∀ c ∈ (read_csv hdr rows).cols, c.dtype ≠ Dtype.bool) →
        (generate_summary_stats (read_csv hdr rows)).numericColumns
          + (generate_summary_stats (read_csv hdr rows)).categoricalColumns
          = hdr.length) := by
  refine ⟨read_csv_cols_length hdr rows,
    fun c hc => (read_csv_col_spec hdr rows c hc).1, ?_⟩
  intro hnb
  have hcompl : ∀ c ∈ (read_csv hdr rows).cols,
      (fun c : Column => c.dtype.isCategorical) c
        = !(fun c : Column => c.dtype.isNumeric) c :=
    fun c hc => dtype_compl (hnb c hc)
  have hpart := length_filter_partition (fun c : Column => c.dtype.isNumeric)
    (fun c : Column => c.dtype.isCategorical) (read_csv hdr rows).cols hcompl
  show (numericColumns (read_csv hdr rows)).length
    + (categoricalColumns (read_csv hdr rows)).length = hdr.length
  unfold numericColumns categoricalColumns
  rw [hpart, read_csv_cols_length]

/-- Witness for C2's amended statement at the worked example CSV. -/
theorem read_csv_shape_and_partition_witness :
    (read_csv csv6header csv6rows).cols.length = 3
    ∧ (generate_summary_stats (read_csv csv6header csv6rows)).numericColumns
        + (generate_summary_stats (read_csv csv6header csv6rows)).categoricalColumns
        = 3 := by
  have h := read_csv_shape_and_partition csv6header csv6rows (by decide)
  exact ⟨h.1, h.2.2 (by decide)⟩

/-- Counterexample to C2 as stated: a well-formed one-column CSV of boolean
literals loads with dtype `bool`, so the numeric and categorical column
counts sum to 0, not to the column count 1 — the two type sets do not
partition the columns. -/
theorem read_csv_bool_column_breaks_partition :
    dfBool.cols.length = 1
    ∧ (generate_summary_stats dfBool).numericColumns
        + (generate_summary_stats dfBool).categoricalColumns
        ≠ dfBool.cols.length := by
  decide

/-- C3: `generate_summary_stats` is a pure function of the dataset (in this
embedding of its read-only pandas calls, two calls on the same dataset are
definitionally the same value and the dataset is untouched), and the
reported total null-cell count equals the sum over all columns of that
column's null count. -/
theorem generate_summary_stats_pure_null_sum (d : DataFrame) :
    generate_summary_stats d = generate_summary_stats d
    ∧ (generate_summary_stats d).missingValues = (d.cols.map nullCount).sum :=
  ⟨rfl, totalNulls_eq_sum_nullCount d⟩

/-- C4 (amended): for every loaded dataset and both correlation methods,
the correlation matrix over the numeric-only projection is symmetric; and
provided every numeric column is non-constant on its non-null values, every
diagonal entry equals 1 (a constant column instead yields an undefined
`NaN` diagonal entry, see the counterexample). -/
theorem corrMatrix_symm_and_unit_diag (df : DataFrame) (m : CorrMethod) :
    (∀ i j, matEntry (corrMatrix m df) i j = matEntry (corrMatrix m df) j i)
    ∧ ((∀ c ∈ numericColumns df, nonConstant (c.cells.map Cell.toRat?)) →
        ∀ i, i < (corrMatrix m df).length →
          matEntry (corrMatrix m df) i i = some (some ⟨1, 1⟩)) := by
  constructor
  · intro i j
    rw [corrMatrix_entry, corrMatrix_entry]
    cases hx : (numericSeries df).get? i <;>
      cases hy : (numericSeries df).get? j <;>
      simp [corrEntry_comm]
  · intro hnc i hi
    have hlen : (corrMatrix m df).length = (numericSeries df).length := by
      simp [corrMatrix]
    have hlt : i < (numericSeries df).length := hlen ▸ hi
    have hx : (numericSeries df).get? i
        = some ((numericSeries df).get ⟨i, hlt⟩) := List.get?_eq_get hlt
    have hmem : (numericSeries df).get ⟨i, hlt⟩ ∈ numericSeries df :=
      List.get_mem _ _ _
    obtain ⟨c, hc, hxc⟩ := List.mem_map.mp
      (show (numericSeries df).get ⟨i, hlt⟩
          ∈ (numericColumns df).map (fun c => c.cells.map Cell.toRat?) from hmem)
    rw [corrMatrix_entry, hx, ← hxc]
    show some (corrEntry m (c.cells.map Cell.toRat?) (c.cells.map Cell.toRat?))
      = some (some ⟨1, 1⟩)
    exact congrArg some (corrEntry_self m _ (hnc c hc))

/-- Witness for C4's amended statement at a loaded dataset with two
non-constant numeric columns. -/
theorem corrMatrix_symm_and_unit_diag_witness :
    matEntry (corrMatrix CorrMethod.pearson dfInts) 0 1
      = matEntry (corrMatrix CorrMethod.pearson dfInts) 1 0
    ∧ matEntry (corrMatrix CorrMethod.pearson dfInts) 0 0 = some (some ⟨1, 1⟩) := by
  have h := corrMatrix_symm_and_unit_diag dfInts CorrMethod.pearson
  exact ⟨h.1 0 1, h.2 (by decide) 0 (by decide)⟩

/-- Counterexample to C4 as stated: a loaded dataset whose single numeric
column is constant has an undefined (`NaN`, here `none`) diagonal entry,
not 1. -/
theorem corr_diag_nan_on_constant_column :
    matEntry (corrMatrix CorrMethod.pearson dfConst) 0 0 = some none
    ∧ matEntry (corrMatrix CorrMethod.pearson dfConst) 0 0
        ≠ some (some ⟨1, 1⟩) := by
  have hone : ((1:ℤ):ℚ) = 1 := by norm_num
  have hvp : validPairs [some ((1:ℤ):ℚ), some ((1:ℤ):ℚ)]
      [some ((1:ℤ):ℚ), some ((1:ℤ):ℚ)]
      = [(((1:ℤ):ℚ), ((1:ℤ):ℚ)), (((1:ℤ):ℚ), ((1:ℤ):ℚ))] := rfl
  have hmean : listMean [(1:ℚ), 1] = 1 := by norm_num [listMean]
  have hdm : demean [(1:ℚ), 1] = [0, 0] := by simp [demean, hmean]
  have hsp : sprod [(0:ℚ), 0] [0, 0] = 0 := by simp [sprod]
  have hentry : corrEntry CorrMethod.pearson
      [some ((1:ℤ):ℚ), some ((1:ℤ):ℚ)] [some ((1:ℤ):ℚ), some ((1:ℤ):ℚ)] = none := by
    simp only [corrEntry, hvp, List.map_cons, List.map_nil]
    rw [hone]
    simp [pearsonOf, hdm, hsp]
  have hm : matEntry (corrMatrix CorrMethod.pearson dfConst) 0 0
      = some (corrEntry CorrMethod.pearson
          [some ((1:ℤ):ℚ), some ((1:ℤ):ℚ)] [some ((1:ℤ):ℚ), some ((1:ℤ):ℚ)]) := by
    rw [corrMatrix_entry]
    rfl
  rw [hm, hentry]
  exact ⟨rfl, by simp⟩

/-- C5 (amended): the rendering offers its controls unconditionally: with a
loaded dataset the Correlation Analysis branch always shows the
correlation-method radio and the Univariate branch always shows the
numeric-column selectbox and histogram (with an empty option list when no
numeric column exists), regardless of the dataset's column composition; and
no render ever offers a categorical value-count control (the code has no
such feature). -/
theorem controls_offered_regardless (env : Env) (ui : UiState) (d : DataFrame)
    (hd : dataOf env ui = some d) :
    (ui.analysisType = .correlation →
      Widget.radioW "Select Correlation Method" ["Pearson", "Spearman"]
        ui.corrMethod.label ∈ main_render env ui)
    ∧ (ui.analysisType = .univariate →
      Widget.selectboxW "Select Numeric Column"
          ((numericColumns d).map Column.name) (numSelection d ui)
        ∈ main_render env ui
      ∧ Widget.histChart (numSelection d ui) ∈ main_render env ui)
    ∧ (∀ w ∈ main_render env ui, ∀ col counts,
        w ≠ Widget.valueCountDisplay col counts) := by
  refine ⟨?_, ?_, ?_⟩
  · intro hty
    unfold main_render
    rw [hd]
    simp [renderBody, branchWidgets, hty]
  · intro hty
    constructor <;>
      (unfold main_render; rw [hd]; simp [renderBody, branchWidgets, hty])
  · intro w hw col counts heq
    have := main_render_no_phantom env ui w hw
    rw [heq] at this
    simp [isPhantom] at this

/-- Witness for C5's amended statement: with a dataset that has zero
numeric columns, the correlation-method radio is still offered. -/
theorem controls_offered_regardless_witness :
    Widget.radioW "Select Correlation Method" ["Pearson", "Spearman"] "Pearson"
      ∈ main_render envCat uiCorr := by
  have h := controls_offered_regardless envCat uiCorr dfCat rfl
  exact h.1 rfl

/-- Counterexample to C5 as stated: a loaded dataset with zero numeric
columns for which the render still offers the correlation-method radio, the
numeric-column selectbox (with an empty option list) and the histogram. -/
theorem zero_numeric_still_offers_controls :
    numericColumns dfCat = []
    ∧ Widget.radioW "Select Correlation Method" ["Pearson", "Spearman"] "Pearson"
        ∈ main_render envCat uiCorr
    ∧ Widget.selectboxW "Select Numeric Column" [] none
        ∈ main_render envCat uiDefault
    ∧ Widget.histChart none ∈ main_render envCat uiDefault := by
  decide

/-- C6 (amended): for the worked example CSV the loader reports 3 rows, 2
numeric columns, 1 categorical column and 0 missing values, and the
`describe()` summary of `glucose` reports mean 1798/15 ≈ 119.87 (within
0.01).  The claim's remaining sentence — that categorical value counts for
`outcome` are reported — is dropped: the program has no value-count
display (see the counterexample). -/
theorem example_csv_summary_and_mean :
    generate_summary_stats df6 =
      { totalRecords := 3, missingValues := 0
        numericColumns := 2, categoricalColumns := 1 }
    ∧ (colByName df6 "glucose").map describeMean = some (some (1798 / 15))
    ∧ |(1798 : ℚ) / 15 - 11987 / 100| < 1 / 100 := by
  refine ⟨by decide, ?_, ?_⟩
  · have h : (colByName df6 "glucose").map describeMean
        = some (some (((((99:ℕ):ℚ) + ((1:ℕ):ℚ) / (10:ℚ) ^ 1)
            + ((((150:ℕ):ℚ) + ((0:ℕ):ℚ) / (10:ℚ) ^ 1)
              + ((((110:ℕ):ℚ) + ((5:ℕ):ℚ) / (10:ℚ) ^ 1) + 0)))
          / ((3:ℕ):ℚ))) := rfl
    rw [h]
    norm_num
  · rw [abs_sub_lt_iff]
    norm_num

/-- Counterexample to C6 as stated: no render of the program on the worked
example CSV, under any widget state, contains a categorical value-count
display — the reported `A: 2, B: 1` output does not exist. -/
theorem no_value_count_display_exists :
    ¬ ∃ ui : UiState, ∃ w ∈ main_render env6 ui,
      ∃ col counts, w = Widget.valueCountDisplay col counts := by
  rintro ⟨ui, w, hw, col, counts, rfl⟩
  simpa [isPhantom] using main_render_no_phantom env6 ui _ hw

/-- C7: whenever `load_data` yields an absent dataset, the render
short-circuits: the post-load output is exactly the single no-data error
notice, that notice appears exactly once in the whole render, and no widget
of the render carries statistical or plotting output. -/
theorem no_data_short_circuit (env : Env) (ui : UiState)
    (h : dataOf env ui = none) :
    main_render env ui
      = headerWidgets ++ sidebarWidgets ++ loadWidgets env ui
        ++ [Widget.errorMsg noDataMsg]
    ∧ countNoData (main_render env ui) = 1
    ∧ ∀ w ∈ main_render env ui, isStatW w = false := by
  have hmr : main_render env ui
      = headerWidgets ++ sidebarWidgets ++ loadWidgets env ui
        ++ [Widget.errorMsg noDataMsg] := by
    unfold main_render
    rw [h]
  refine ⟨hmr, ?_, ?_⟩
  · rw [hmr]
    unfold countNoData
    rw [List.countP_append, List.countP_append, List.countP_append]
    have h1 := countNoData_loadWidgets env ui
    unfold countNoData at h1
    rw [h1]
    decide
  · rw [hmr]
    intro w hw
    rcases List.mem_append.mp hw with hw | hw
    · rcases List.mem_append.mp hw with hw | hw
      · rcases List.mem_append.mp hw with hw | hw
        · simp only [headerWidgets, List.mem_cons, List.not_mem_nil, or_false] at hw
          rcases hw with rfl | rfl <;> rfl
        · simp only [sidebarWidgets, List.mem_cons, List.not_mem_nil, or_false] at hw
          rcases hw with rfl | rfl <;> rfl
      · have := List.all_eq_true.mp (loadWidgets_props env ui) w hw
        simp only [Bool.and_eq_true, Bool.not_eq_true'] at this
        exact this.2
    · simp only [List.mem_cons, List.not_mem_nil, or_false] at hw
      subst hw
      rfl

/-- Witness for C7 at a concretely failing environment. -/
theorem no_data_short_circuit_witness :
    countNoData (main_render envFail uiDefault) = 1 :=
  (no_data_short_circuit envFail uiDefault rfl).2.1

/-- C8: with no uploaded file the render loads the default on-disk
`diabetes.csv`; with an uploaded file it loads that upload instead. -/
theorem data_source_selection (env : Env) (ui : UiState) :
    (ui.uploaded = none →
      dataOf env ui = (load_data env (Source.path "diabetes.csv")).1)
    ∧ (∀ f, ui.uploaded = some f →
      dataOf env ui = (load_data env (Source.upload f)).1) := by
  constructor
  · intro h
    unfold dataOf chosenSource
    rw [h]
  · intro f h
    unfold dataOf chosenSource
    rw [h]

/-- Witness for C8 at a concrete render with no upload. -/
theorem data_source_selection_witness :
    dataOf env6 uiDefault = (load_data env6 (Source.path "diabetes.csv")).1 :=
  (data_source_selection env6 uiDefault).1 rfl

/-- C9: in the bivariate branch the Y-axis options exclude the chosen X
column, so any reported Y selection differs from the X selection; and a
single-column dataset leaves the Y-axis option list empty. -/
theorem bivariate_axes_distinct (d : DataFrame) (ui : UiState) :
    (∀ y, ySelection d ui = some y → some y ≠ xSelection d ui)
    ∧ (∀ c, d.cols.map Column.name = [c] → yOptions d ui = []) := by
  constructor
  · intro y hy
    have hmem := select_mem hy
    have hf := List.mem_filter.mp (show y ∈ (d.cols.map Column.name).filter
      (fun c => !(some c == xSelection d ui)) from hmem)
    have := hf.2
    simp only [Bool.not_eq_true'] at this
    exact fun heq => by
      rw [← heq] at this
      simp at this
  · intro c hc
    unfold yOptions xSelection
    rw [hc, select_singleton]
    simp

/-- Witness for C9 at the worked example CSV, first selections. -/
theorem bivariate_axes_distinct_witness :
    some "glucose" ≠ xSelection df6 uiDefault :=
  (bivariate_axes_distinct df6 uiDefault).1 "glucose" (by decide)

/-- C10: a click of the export button with a loaded dataset emits the
success message, and the render produces no report artifact: no widget of
any render is a download/file-write effect. -/
theorem export_click_success_no_artifact (env : Env) (ui : UiState)
    (d : DataFrame) (hd : dataOf env ui = some d)
    (hc : ui.exportClicked = true) :
    Widget.successMsg "Report exported successfully!" ∈ main_render env ui
    ∧ ∀ w ∈ main_render env ui, ∀ nm, w ≠ Widget.downloadArtifact nm := by
  constructor
  · unfold main_render
    rw [hd]
    simp [renderBody, hc]
  · intro w hw nm heq
    have := main_render_no_phantom env ui w hw
    rw [heq] at this
    simp [isPhantom] at this

/-- Witness for C10 at a concrete render with the button clicked. -/
theorem export_click_success_no_artifact_witness :
    Widget.successMsg "Report exported successfully!"
      ∈ main_render env6 uiExport :=
  (export_click_success_no_artifact env6 uiExport df6 rfl rfl).1

end Dashboard
